import Mathlib

/-!
Verification development for the Rasterlite raster-to-tile-store ingestion
pipeline (`frmts/rasterlite/rasterlitecreatecopy.cpp`).

The C code is shallowly embedded: machine `int` values are modelled as `Int`
(no overflow is relevant to the properties below), C `double` values as `ℚ`,
the SQLite store as an explicit `DBState` record, and the external
collaborators (GDAL driver registry, codec, window reads, progress callback)
as boolean oracles.  External SQL semantics modelled here:

* `GDALDatasetExecuteSQL` of a syntactically valid SELECT on an existing
  table returns a (possibly empty) result layer; it returns the null sentinel
  only when the statement fails, e.g. because the queried table does not
  exist.  A spatialite-enabled database always has the `spatial_ref_sys` and
  `geometry_columns` tables; a plain SQLite database has neither.
* An INSERT/DELETE/UPDATE against a missing table fails and changes nothing
  (the code ignores the error).
* `BEGIN` / `COMMIT` / `ROLLBACK` give all-or-nothing semantics for the row
  insertions performed in between; statements executed before `BEGIN` are
  autocommitted and are not undone by the later `ROLLBACK`.
-/

deriving instance DecidableEq for Except

namespace Rasterlite

/-! ## C string helpers (CPL/CSL functions), modelled structurally on
    the character list of a `String` so they evaluate in the kernel. -/

/-- Case-insensitive string equality, modelling the C `EQUAL` macro
(ASCII `strcasecmp`). -/
def equalCI (a b : String) : Bool :=
  a.data.map Char.toUpper = b.data.map Char.toUpper

/-- Helper for `startsWithCI`: does the second list start with the first,
comparing case-insensitively? -/
def startsWithCIChars : List Char → List Char → Bool
  | [], _ => true
  | _ :: _, [] => false
  | p :: ps, c :: cs => (Char.toUpper c = Char.toUpper p) && startsWithCIChars ps cs

/-- Case-insensitive "starts with", modelling the C `STARTS_WITH_CI` macro. -/
def startsWithCI (s pat : String) : Bool :=
  startsWithCIChars pat.data s.data

/-- Digit-accumulating core of the C `atoi`. -/
def atoiDigits : List Char → Int → Int
  | [], acc => acc
  | c :: cs, acc => if c.isDigit then atoiDigits cs (acc * 10 + ((c.toNat : Int) - 48)) else acc

/-- The C `atoi`: skip leading whitespace, optional sign, then leading digits
(0 when no digits). -/
def atoi (s : String) : Int :=
  let l := s.data.dropWhile (fun c => c == ' ' || c == '\t' || c == '\n' || c == '\r')
  match l with
  | '-' :: rest => - atoiDigits rest 0
  | '+' :: rest => atoiDigits rest 0
  | _ => atoiDigits l 0

/-- Option lists (`char **papszOptions` of `KEY=VALUE` pairs) are modelled as
association lists; `CSLFetchNameValue` finds the first pair whose key matches
case-insensitively. -/
def cslFetchNameValue (opts : List (String × String)) (key : String) : Option String :=
  (opts.find? (fun p => equalCI p.1 key)).map (fun p => p.2)

/-- `CSLFetchNameValueDef`: fetch with a default. -/
def cslFetchNameValueDef (opts : List (String × String)) (key dflt : String) : String :=
  (cslFetchNameValue opts key).getD dflt

/-- `CPLTestBool`: everything is true except NO/FALSE/OFF/0 (case-insensitive). -/
def cplTestBool (s : String) : Bool :=
  !(equalCI s "NO" || equalCI s "FALSE" || equalCI s "OFF" || equalCI s "0")

/-- Splits a character list at a delimiter, keeping empty pieces. -/
def splitListOn (d : Char) : List Char → List (List Char)
  | [] => [[]]
  | c :: cs =>
    if c = d then [] :: splitListOn d cs
    else
      match splitListOn d cs with
      | [] => [[c]]
      | t :: ts => (c :: t) :: ts

/-- `CSLTokenizeStringComplex(s, ",", FALSE, FALSE)`: split on the delimiter,
dropping empty tokens. -/
def tokenize (d : Char) (s : String) : List String :=
  ((splitListOn d s.data).map (fun l => String.mk l)).filter (fun t => t ≠ "")

/-- The path component after the last directory separator. -/
def lastComponentChars (l : List Char) : List Char :=
  l.foldl (fun acc c => if c = '/' ∨ c = '\\' then [] else acc ++ [c]) []

/-- Remove the extension at the last dot of a path component (identity when
there is no dot). -/
def stripExtChars (l : List Char) : List Char :=
  if l.contains '.' then ((l.reverse.dropWhile (fun c => c ≠ '.')).drop 1).reverse else l

/-- `CPLGetBasenameSafe`: the component after the last directory separator,
without its extension. -/
def cplGetBasename (s : String) : String :=
  String.mk (stripExtChars (lastComponentChars s.data))

/-! ## Data model -/

/-- The six GDAL geotransform coefficients (C doubles, modelled as `ℚ`):
world x = gt0 + col*gt1 + row*gt2, world y = gt3 + col*gt4 + row*gt5. -/
structure GeoTransform where
  gt0 : ℚ
  gt1 : ℚ
  gt2 : ℚ
  gt3 : ℚ
  gt4 : ℚ
  gt5 : ℚ
deriving DecidableEq

/-- An axis-aligned world-coordinate rectangle (the polygon geometry stored
with each tile). -/
structure Rect where
  minx : ℚ
  miny : ℚ
  maxx : ℚ
  maxy : ℚ
deriving DecidableEq

/-- A row of the shared `spatial_ref_sys` registry table. -/
structure SRSRow where
  srid : Int
  auth_name : String
  auth_srid : Int
  proj4text : String
deriving DecidableEq

/-- A row of the `<table>_rasters` tile-blob table. -/
structure RasterRow where
  id : Int
  blob : List Nat
deriving DecidableEq

/-- A row of the `<table>_metadata` table. -/
structure MetadataRow where
  id : Int
  source_name : String
  tile_id : Int
  width : Int
  height : Int
  pixel_x_size : ℚ
  pixel_y_size : ℚ
  geometry : Rect
deriving DecidableEq

/-- The observable state of the SQLite store file, restricted to the single
table pair named by the run's table name (the only one the code touches).
`spatialite` says whether the spatialite extension is active in this file,
which is what makes `spatial_ref_sys` / `geometry_columns` exist and
`AddGeometryColumn` succeed.  `geometrySrid` is the `geometry_columns` row
for the metadata table (none = no such row).  `nextRasterId` models the
AUTOINCREMENT counter of the rasters table. -/
structure DBState where
  spatialite : Bool
  srsRows : List SRSRow
  rasterTableExists : Bool
  metadataTableExists : Bool
  geometrySrid : Option Int
  rasterRows : List RasterRow
  metadataRows : List MetadataRow
  nextRasterId : Int
deriving DecidableEq

/-- The authority data the code extracts from a parsed spatial-reference
descriptor (`OSRGetAuthorityName` / `OSRGetAuthorityCode` / PROJCS node /
proj4 export). `none` models an absent or unparsable WKT. -/
structure SRSInfo where
  authorityName : String
  authorityCode : Int
  projCS : String
  proj4 : String
deriving DecidableEq

/-- The source dataset as the pipeline observes it. -/
structure SrcDataset where
  nBands : Int
  nXSize : Int
  nYSize : Int
  geoTransform : Option GeoTransform
  srs : Option SRSInfo
  description : String

/-- External-collaborator oracles for the per-block loop, indexed by the
0-based block sequence number: window read (`RasterIO`), tile encode
(`GDALCreateCopy` of the block), the two `OGR_L_CreateFeature` inserts, the
progress callback's continue/stop answer, and the encoded blob bytes. -/
structure BlockOracle where
  readOk : Nat → Bool
  encodeOk : Nat → Bool
  blob : Nat → List Nat
  insertRasterOk : Nat → Bool
  insertMetadataOk : Nat → Bool
  progressOk : Nat → Bool

/-- Availability / success oracles for the driver registry, store creation,
(re)opening, and the block-buffer allocation, plus the contents a freshly
created spatialite store starts with. -/
structure Env where
  tileDriverExists : Bool
  memDriverExists : Bool
  sqliteDriverExists : Bool
  createOk : Bool
  openOk : Bool
  allocOk : Bool
  spatialiteSupported : Bool
  freshRegistry : List SRSRow

/-- The store file produced by `GDALCreate` with `SPATIALITE=YES`. -/
def freshDB (env : Env) : DBState :=
  { spatialite := env.spatialiteSupported
    srsRows := env.freshRegistry
    rasterTableExists := false
    metadataTableExists := false
    geometrySrid := none
    rasterRows := []
    metadataRows := []
    nextRasterId := 1 }

/-! ## Spatial Reference Registrar (`RasterliteInsertSRID`) -/

/-- The authority code the code extracts (0 when the descriptor is absent,
unparsable, or has no authority node). -/
def authCodeOf : Option SRSInfo → Int
  | none => 0
  | some s => s.authorityCode

/-- The authority name the code extracts ("" when absent). -/
def authNameOf : Option SRSInfo → String
  | none => ""
  | some s => s.authorityName

/-- `RasterliteInsertSRID`.  The code issues
`SELECT srid FROM spatial_ref_sys WHERE auth_srid = code` and branches on
whether `ExecuteSQL` returned null.  A valid SELECT on an existing table
returns a (possibly empty) layer, so the null branch — the one that picks
`nSRSId = nAuthorityCode` and issues the INSERT — runs exactly when
`spatial_ref_sys` is missing (no spatialite); in that case the INSERT into
the missing table fails and is ignored, so the registry is never mutated.
When the table exists and the lookup finds no row, `OGR_L_GetNextFeature`
returns null and `nSRSId` keeps its initial value −1. -/
def rasterliteInsertSRID (srs : Option SRSInfo) (db : DBState) : Int × DBState :=
  let nAuthorityCode : Int := authCodeOf srs
  let osAuthorityName : String := authNameOf srs
  if nAuthorityCode ≠ 0 ∧ osAuthorityName ≠ "" then
    if db.spatialite then
      match db.srsRows.find? (fun r => r.auth_srid == nAuthorityCode) with
      | some r => (r.srid, db)
      | none => (-1, db)
    else
      (nAuthorityCode, db)
  else
    (-1, db)

/-! ## Schema Manager (`RasterliteCreateTables`) -/

/-- The two `DELETE FROM` statements of the wipe path; a DELETE against a
missing table fails and is ignored. -/
def wipeRows (db : DBState) : DBState :=
  { db with
    rasterRows := if db.rasterTableExists then [] else db.rasterRows
    metadataRows := if db.metadataTableExists then [] else db.metadataRows }

/-- `RasterliteCreateTables`.  Returns the resulting file state together with
a success flag (`false` models the C function returning null after
`GDALClose`).  `openOk` models whether the close-and-reopen steps
(`RasterliteOpenSQLiteDB`) succeed. -/
def rasterliteCreateTables (openOk : Bool) (nSRSId : Int) (bWipeExistingData : Bool)
    (db : DBState) : DBState × Bool :=
  if db.rasterTableExists = false then
    -- create branch: both CREATE TABLE statements (plain SQL, always work;
    -- a CREATE TABLE against an already existing metadata table fails and is
    -- ignored, leaving its rows in place), then AddGeometryColumn (fatal
    -- without spatialite), CreateSpatialIndex, best-effort statistics, and
    -- a close-and-reopen of the store.
    let db1 : DBState := { db with rasterTableExists := true, metadataTableExists := true }
    if db1.spatialite = false then (db1, false)
    else
      let db2 : DBState := { db1 with geometrySrid := some nSRSId }
      (db2, openOk)
  else
    -- reuse branch: `SELECT srid FROM geometry_columns WHERE f_table_name=…`
    -- yields a layer only when `geometry_columns` exists (spatialite); the
    -- SRID read defaults to −1 when no row matches.
    if db.spatialite = true ∧ db.geometrySrid.getD (-1) ≠ nSRSId then
      if bWipeExistingData then
        let db1 : DBState := { db with geometrySrid := db.geometrySrid.map (fun _ => nSRSId) }
        if openOk then (wipeRows db1, true) else (db1, false)
      else
        (db, false)
    else
      (if bWipeExistingData then wipeRows db else db, true)

/-! ## Tiling geometry -/

/-- Clamping of a tiled block dimension to [64, 4096] (lines 376–383). -/
def clampBlockSize (n : Int) : Int :=
  if n < 64 then 64 else if n > 4096 then 4096 else n

/-- Block-size determination (lines 367–389): with TILED (default YES) the
BLOCKXSIZE/BLOCKYSIZE options (default 256) are clamped; otherwise a single
block covering the whole raster is used. -/
def blockSizes (opts : List (String × String)) (nXSize nYSize : Int) : Int × Int :=
  if cplTestBool (cslFetchNameValueDef opts "TILED" "YES") then
    (clampBlockSize (atoi (cslFetchNameValueDef opts "BLOCKXSIZE" "256")),
     clampBlockSize (atoi (cslFetchNameValueDef opts "BLOCKYSIZE" "256")))
  else
    (nXSize, nYSize)

/-- `(size + blockSize - 1) / blockSize`, the block count per axis
(lines 556–557; C `int` division on nonnegative operands). -/
def numBlocks (size bS : Int) : Int := (size + bS - 1) / bS

/-- Actual pixel extent of a block, clipped at the raster edge
(lines 593–598). -/
def reqSize (size bS off : Int) : Int :=
  if (off + 1) * bS > size then size - off * bS else bS

/-- World rectangle of a block (lines 671–678). -/
def blockRect (gt : GeoTransform) (bW bH bx byy reqX reqY : Int) : Rect :=
  { minx := gt.gt0 + ((bW * bx : Int) : ℚ) * gt.gt1
    maxx := gt.gt0 + ((bW * bx + reqX : Int) : ℚ) * gt.gt1
    maxy := gt.gt3 + ((bH * byy : Int) : ℚ) * gt.gt5
    miny := gt.gt3 + ((bH * byy + reqY : Int) : ℚ) * gt.gt5 }

/-- The metadata row inserted for the block `b = (bx, byy)` with raster id
`rid` and running tile number `tid` (lines 662–689): note that the stored
`pixel_y_size` is the negation of `gt5`, and the rectangle is computed from
the block's pixel-space corners. -/
def mkRow (srcName : String) (gt : GeoTransform) (W H bW bH : Int)
    (rid : Int) (tid : Nat) (b : Int × Int) : MetadataRow :=
  let reqX := reqSize W bW b.1
  let reqY := reqSize H bH b.2
  { id := rid
    source_name := srcName
    tile_id := (tid : Int)
    width := reqX
    height := reqY
    pixel_x_size := gt.gt1
    pixel_y_size := -gt.gt5
    geometry := blockRect gt bW bH b.1 b.2 reqX reqY }

/-! ## The per-block loop (lines 582–699) -/

/-- One iteration of the block loop: window read, encode, raster-row insert
(capturing the assigned id), metadata-row insert, progress callback.  The
returned flag is `false` when the C loop sets `eErr` and leaves (any such
failure terminates the loop before the next block).  The returned state
carries whatever rows were inserted before the failing step — visibility is
decided later by COMMIT/ROLLBACK. -/
def stepBlock (srcName : String) (gt : GeoTransform) (W H bW bH : Int)
    (orc : BlockOracle) (n : Nat) (b : Int × Int) (db : DBState) : DBState × Bool :=
  if orc.readOk n = false then (db, false)
  else if orc.encodeOk n = false then (db, false)
  else if orc.insertRasterOk n = false then (db, false)
  else
    let rid := db.nextRasterId
    let db1 : DBState :=
      { db with rasterRows := db.rasterRows ++ [{ id := rid, blob := orc.blob n }]
                nextRasterId := rid + 1 }
    if orc.insertMetadataOk n = false then (db1, false)
    else
      let db2 : DBState :=
        { db1 with metadataRows := db1.metadataRows ++ [mkRow srcName gt W H bW bH rid n b] }
      if orc.progressOk n = false then (db2, false) else (db2, true)

/-- Folds a step function over the remaining blocks, threading the sequence
number; stops at the first failing step. -/
def runLoop (step : Nat → Int × Int → DBState → DBState × Bool) :
    List (Int × Int) → Nat → DBState → DBState × Bool
  | [], _, db => (db, true)
  | b :: bs, n, db =>
    let r := step n b db
    if r.2 then runLoop step bs (n + 1) r.1 else (r.1, false)

/-- The blocks in the loop's row-major order: outer loop over block rows
(top to bottom), inner loop over block columns (left to right). -/
def blockList (xB yB : Nat) : List (Int × Int) :=
  (List.range yB).flatMap (fun (j : Nat) => (List.range xB).map (fun (i : Nat) => ((i : Int), (j : Int))))

/-- The transaction around the loop: BEGIN, run all blocks, then COMMIT on
success or ROLLBACK (restoring the pre-transaction state) on any failure. -/
def ingestRun (srcName : String) (gt : GeoTransform) (W H bW bH : Int)
    (orc : BlockOracle) (db : DBState) : DBState × Bool :=
  let r := runLoop (stepBlock srcName gt W H bW bH orc)
             (blockList (numBlocks W bW).toNat (numBlocks H bH).toNat) 0 db
  if r.2 then (r.1, true) else (db, false)

/-! ## Target-specifier parsing (lines 396–443) -/

/-- Skips the optional case-insensitive `RASTERLITE:` scheme (11 chars). -/
def stripScheme (filename : String) : String :=
  if startsWithCI filename "RASTERLITE:" then String.mk (filename.data.drop 11) else filename

/-- Parses `[RASTERLITE:]STOREPATH[,KEY=VALUE]*` into (store path, table
name); `none` models the "Database already exists. Explicit table name must
be specified" failure. -/
def parseTarget (filename : String) (fileExists : Bool) : Option (String × String) :=
  let fwp := stripScheme filename
  let tokens := tokenize ',' fwp
  let dbName := match tokens with | [] => fwp | t0 :: _ => t0
  let tableName0 := match tokens with
    | [] => cplGetBasename fwp
    | _ :: rest => rest.foldl (fun acc t => if startsWithCI t "table=" then String.mk (t.data.drop 6) else acc) ""
  if tableName0 = "" then
    if fileExists then none
    else some (dbName, cplGetBasename dbName)
  else some (dbName, tableName0)

/-! ## The full pipeline (`RasterliteCreateCopy`, lines 310–720) -/

/-- Everything `setupPhase` must hand to the transaction phase. -/
structure SetupResult where
  dbName : String
  tableName : String
  gt : GeoTransform
  blockX : Int
  blockY : Int
  srid : Int
  db : DBState
deriving DecidableEq

/-- Geotransform acquisition (lines 350–365): substitute the north-up
identity when absent, reject rotational terms. -/
def effectiveGeoTransform (src : SrcDataset) : Option GeoTransform :=
  match src.geoTransform with
  | none => some { gt0 := 0, gt1 := 1, gt2 := 0, gt3 := 0, gt4 := 0, gt5 := -1 }
  | some gt => if gt.gt2 ≠ 0 ∨ gt.gt4 ≠ 0 then none else some gt

/-- The part of the pipeline after the store has been opened or created:
SRID resolution, table creation/validation, layer lookup, overlap advisory
(read-only, omitted), block-buffer allocation.  `.error st` is a null return
with the store file left in state `st`. -/
def setupOpened (env : Env) (names : String × String) (gt : GeoTransform)
    (bWH : Int × Int) (src : SrcDataset) (opts : List (String × String))
    (db0 : DBState) : Except (Option DBState) SetupResult :=
  let sr := rasterliteInsertSRID src.srs db0
  let wipe := cplTestBool (cslFetchNameValueDef opts "WIPE" "NO")
  let p := rasterliteCreateTables env.openOk sr.1 wipe sr.2
  if p.2 = false then .error (some p.1)
  else if p.1.rasterTableExists = false ∨ p.1.metadataTableExists = false then .error (some p.1)
  else if env.allocOk = false then .error (some p.1)
  else .ok { dbName := names.1, tableName := names.2, gt := gt,
             blockX := bWH.1, blockY := bWH.2, srid := sr.1, db := p.1 }

/-- All steps of `RasterliteCreateCopy` before `BEGIN`, in source order:
band-count check, disallowed/missing drivers, geotransform check, block
size, target parsing, store open/create, then `setupOpened`. -/
def setupPhase (env : Env) (filename : String) (src : SrcDataset)
    (opts : List (String × String)) (store0 : Option DBState) :
    Except (Option DBState) SetupResult :=
  if src.nBands = 0 then .error store0
  else if equalCI (cslFetchNameValueDef opts "DRIVER" "GTiff") "MEM"
       ∨ equalCI (cslFetchNameValueDef opts "DRIVER" "GTiff") "VRT" then .error store0
  else if env.tileDriverExists = false then .error store0
  else if env.memDriverExists = false then .error store0
  else
    match effectiveGeoTransform src with
    | none => .error store0
    | some gt =>
      match parseTarget filename store0.isSome with
      | none => .error store0
      | some names =>
        if env.sqliteDriverExists = false then .error store0
        else
          match store0 with
          | none =>
            if env.createOk then
              setupOpened env names gt (blockSizes opts src.nXSize src.nYSize) src opts (freshDB env)
            else .error store0
          | some db0 =>
            if env.openOk then
              setupOpened env names gt (blockSizes opts src.nXSize src.nYSize) src opts db0
            else .error store0

/-- The three observable outcomes of a run: null return before the
transaction began (with the store file in the given state), null return
after a rollback, or a committed run returning the reopened store. -/
inductive CopyOutcome where
  | earlyFail (st : Option DBState)
  | rolledBack (db : DBState)
  | committed (db : DBState)
deriving DecidableEq

/-- The dataset handle the function returns to the caller (null unless the
transaction committed and the store was reopened). -/
def CopyOutcome.returnedStore : CopyOutcome → Option DBState
  | .committed db => some db
  | _ => none

/-- The state of the store file after the call returns, whatever the
outcome. -/
def CopyOutcome.finalStore : CopyOutcome → Option DBState
  | .earlyFail st => st
  | .rolledBack db => some db
  | .committed db => some db

/-- Did the run commit? -/
def CopyOutcome.isCommitted : CopyOutcome → Bool
  | .committed _ => true
  | _ => false

/-- `RasterliteCreateCopy`: setup, then the transaction around the block
loop. -/
def rasterliteCreateCopy (env : Env) (filename : String) (src : SrcDataset)
    (opts : List (String × String)) (store0 : Option DBState)
    (orc : BlockOracle) : CopyOutcome :=
  match setupPhase env filename src opts store0 with
  | .error st => .earlyFail st
  | .ok r =>
    let p := ingestRun src.description r.gt src.nXSize src.nYSize r.blockX r.blockY orc r.db
    if p.2 then .committed p.1 else .rolledBack p.1

/-! ## Specification-side vocabulary for the claims -/

/-- All five per-block steps of block `n` succeed and the progress callback
does not request cancellation there. -/
def stepOk (orc : BlockOracle) (n : Nat) : Bool :=
  orc.readOk n && orc.encodeOk n && orc.insertRasterOk n && orc.insertMetadataOk n &&
    orc.progressOk n

/-- Every per-block step of the first `total` blocks succeeds. -/
def allStepsOk (orc : BlockOracle) (total : Nat) : Prop :=
  ∀ k, k < total → stepOk orc k = true

/-- Tile rows of the store before the run (empty when the file does not
exist yet). -/
def priorRasterRows : Option DBState → List RasterRow
  | none => []
  | some d => d.rasterRows

/-- Metadata rows of the store before the run. -/
def priorMetadataRows : Option DBState → List MetadataRow
  | none => []
  | some d => d.metadataRows

/-- The metadata rows a run appended, relative to the state `db` at BEGIN. -/
def newMetadataRows (db db' : DBState) : List MetadataRow :=
  db'.metadataRows.drop db.metadataRows.length

/-- The rows the loop inserts into the metadata table for the given blocks,
starting from raster id `rid` and tile number `tid`. -/
def expectedRows (srcName : String) (gt : GeoTransform) (W H bW bH : Int) :
    List (Int × Int) → Int → Nat → List MetadataRow
  | [], _, _ => []
  | b :: bs, rid, tid =>
    mkRow srcName gt W H bW bH rid tid b :: expectedRows srcName gt W H bW bH bs (rid + 1) (tid + 1)

/-- The rows the loop inserts into the rasters table. -/
def expectedRasters (orc : BlockOracle) : List (Int × Int) → Int → Nat → List RasterRow
  | [], _, _ => []
  | _ :: bs, rid, tid => { id := rid, blob := orc.blob tid } :: expectedRasters orc bs (rid + 1) (tid + 1)

/-! ## Concrete instances used by witnesses and counterexamples -/

/-- A north-up geotransform: origin (100, 200), pixel size 10. -/
def gtN : GeoTransform := { gt0 := 100, gt1 := 10, gt2 := 0, gt3 := 200, gt4 := 0, gt5 := -10 }

/-- A south-up geotransform: identity with positive vertical coefficient.
It has no rotational terms, so the pipeline accepts it. -/
def gtS : GeoTransform := { gt0 := 0, gt1 := 1, gt2 := 0, gt3 := 0, gt4 := 0, gt5 := 1 }

/-- An oracle under which every per-block step succeeds. -/
def orcAll : BlockOracle :=
  { readOk := fun _ => true, encodeOk := fun _ => true, blob := fun _ => [0],
    insertRasterOk := fun _ => true, insertMetadataOk := fun _ => true,
    progressOk := fun _ => true }

/-- An oracle whose progress callback requests cancellation at every block. -/
def orcStop : BlockOracle := { orcAll with progressOk := fun _ => false }

/-- An oracle under which every tile encode fails. -/
def orcNoEncode : BlockOracle := { orcAll with encodeOk := fun _ => false }

/-- An environment where every external collaborator works. -/
def envAll : Env :=
  { tileDriverExists := true, memDriverExists := true, sqliteDriverExists := true,
    createOk := true, openOk := true, allocOk := true, spatialiteSupported := true,
    freshRegistry := [] }

/-- A 2×1 single-band source with the north-up transform. -/
def srcTwo : SrcDataset :=
  { nBands := 1, nXSize := 2, nYSize := 1, geoTransform := some gtN, srs := none,
    description := "src" }

/-- A 1×1 single-band source with the south-up transform. -/
def srcSouth : SrcDataset :=
  { nBands := 1, nXSize := 1, nYSize := 1, geoTransform := some gtS, srs := none,
    description := "s" }

/-- An existing, empty, spatialite-enabled table pair bound to SRID −1. -/
def dbReady : DBState :=
  { spatialite := true, srsRows := [], rasterTableExists := true, metadataTableExists := true,
    geometrySrid := some (-1), rasterRows := [], metadataRows := [], nextRasterId := 1 }

/-- A metadata row left by a prior successful ingestion run. -/
def rowPrior : MetadataRow :=
  { id := 1, source_name := "old", tile_id := 0, width := 2, height := 1,
    pixel_x_size := 10, pixel_y_size := 10,
    geometry := { minx := 0, miny := 0, maxx := 1, maxy := 1 } }

/-- `dbReady` populated with one tile/metadata row pair from a prior run. -/
def dbPrior : DBState :=
  { dbReady with rasterRows := [{ id := 1, blob := [0] }], metadataRows := [rowPrior],
                 nextRasterId := 2 }

/-- A store in which the rasters table exists (with one row) but the
metadata table does not. -/
def dbRastersOnly : DBState :=
  { spatialite := true, srsRows := [], rasterTableExists := true, metadataTableExists := false,
    geometrySrid := none, rasterRows := [{ id := 1, blob := [7] }], metadataRows := [],
    nextRasterId := 2 }

/-- An existing table pair whose geometry column is bound to SRID 4326. -/
def dbBound4326 : DBState :=
  { dbReady with geometrySrid := some 4326, rasterRows := [{ id := 1, blob := [0] }] }

/-- A reference descriptor with authority EPSG:32633 — an authority code not
present in `dbReady`'s (empty) registry. -/
def srsUTM : SRSInfo := { authorityName := "EPSG", authorityCode := 32633, projCS := "", proj4 := "" }

/-- The setup result of ingesting `srcTwo` into a fresh store at
`/tmp/sample.sqlite` with default options. -/
def setupTwo : SetupResult :=
  { dbName := "/tmp/sample.sqlite", tableName := "sample", gt := gtN,
    blockX := 256, blockY := 256, srid := -1,
    db := { spatialite := true, srsRows := [], rasterTableExists := true,
            metadataTableExists := true, geometrySrid := some (-1), rasterRows := [],
            metadataRows := [], nextRasterId := 1 } }

/-! ## Arithmetic facts about the block lattice -/

theorem numBlocks_nonneg {W bW : Int} (hW : 0 ≤ W) (hb : 0 < bW) : 0 ≤ numBlocks W bW :=
  Int.ediv_nonneg (by omega) (by omega)

theorem numBlocks_mul_bounds {W bW : Int} (hW : 0 ≤ W) (hb : 0 < bW) :
    W ≤ numBlocks W bW * bW ∧ numBlocks W bW * bW < W + bW := by
  have hid := Int.ediv_add_emod (W + bW - 1) bW
  have hm0 : 0 ≤ (W + bW - 1) % bW := Int.emod_nonneg _ (by omega)
  have hm1 : (W + bW - 1) % bW < bW := Int.emod_lt_of_pos _ hb
  unfold numBlocks
  constructor
  · rw [mul_comm]; linarith
  · rw [mul_comm]; linarith

theorem numBlocks_self {W : Int} (hW : 0 < W) : numBlocks W W = 1 := by
  unfold numBlocks
  have h1 : W + W - 1 = (W - 1) + W * 1 := by ring
  rw [h1, Int.add_mul_ediv_left _ _ (by omega : W ≠ 0),
    Int.ediv_eq_zero_of_lt (by omega) (by omega)]
  omega

theorem numBlocks_eq_ceil {W bW : Int} (hW : 0 ≤ W) (hb : 0 < bW) :
    numBlocks W bW = ⌈(W : ℚ) / (bW : ℚ)⌉ := by
  have h := numBlocks_mul_bounds hW hb
  have hbQ : (0 : ℚ) < (bW : ℚ) := by exact_mod_cast hb
  symm
  rw [Int.ceil_eq_iff]
  constructor
  · rw [lt_div_iff₀ hbQ]
    have h2 : (numBlocks W bW - 1) * bW < W := by nlinarith [h.2]
    exact_mod_cast h2
  · rw [div_le_iff₀ hbQ]
    exact_mod_cast h.1

theorem reqSize_le {W bW bx : Int} (hb : 0 < bW) : reqSize W bW bx ≤ bW := by
  unfold reqSize
  split_ifs with h
  · have he : (bx + 1) * bW = bx * bW + bW := by ring
    linarith
  · exact le_refl bW

theorem reqSize_eq_of_not_last {W bW bx : Int} (hW : 0 ≤ W) (hb : 0 < bW)
    (h : bx + 1 < numBlocks W bW) : reqSize W bW bx = bW := by
  have hbnds := numBlocks_mul_bounds hW hb
  have h1 : (bx + 1) * bW ≤ (numBlocks W bW - 1) * bW :=
    mul_le_mul_of_nonneg_right (by omega) hb.le
  have h2 : (numBlocks W bW - 1) * bW < W := by nlinarith [hbnds.2]
  unfold reqSize
  rw [if_neg (not_lt.mpr (le_of_lt (lt_of_le_of_lt h1 h2)))]

theorem reqSize_last {W bW bx : Int} (hW : 0 ≤ W) (hb : 0 < bW)
    (h : bx + 1 = numBlocks W bW) :
    reqSize W bW bx = if W % bW = 0 then bW else W % bW := by
  have hq := Int.ediv_add_emod W bW
  have hm0 : 0 ≤ W % bW := Int.emod_nonneg _ (by omega)
  have hm1 : W % bW < bW := Int.emod_lt_of_pos _ hb
  by_cases hz : W % bW = 0
  · have hWq : bW * (W / bW) = W := by linarith
    have hXq : numBlocks W bW = W / bW := by
      unfold numBlocks
      have h1 : W + bW - 1 = (bW - 1) + bW * (W / bW) := by linarith
      rw [h1, Int.add_mul_ediv_left _ _ (by omega : bW ≠ 0),
        Int.ediv_eq_zero_of_lt (by omega) (by omega)]
      ring
    have hbx : bx = W / bW - 1 := by omega
    unfold reqSize
    rw [if_neg, if_pos hz]
    rw [hbx]
    have : (W / bW - 1 + 1) * bW = bW * (W / bW) := by ring
    rw [this, hWq]
    exact lt_irrefl W
  · have hXq : numBlocks W bW = W / bW + 1 := by
      unfold numBlocks
      have h1 : W + bW - 1 = (W % bW - 1) + bW * (W / bW + 1) := by
        have : bW * (W / bW + 1) = bW * (W / bW) + bW := by ring
        linarith
      rw [h1, Int.add_mul_ediv_left _ _ (by omega : bW ≠ 0),
        Int.ediv_eq_zero_of_lt (by omega) (by omega)]
      ring
    have hbx : bx = W / bW := by omega
    unfold reqSize
    rw [if_pos, if_neg hz]
    · rw [hbx]
      have : W - W / bW * bW = W % bW := by linarith [mul_comm (W / bW) bW]
      linarith [mul_comm (W / bW) bW]
    · rw [hbx]
      have : (W / bW + 1) * bW = bW * (W / bW) + bW := by ring
      linarith

/-! ## Facts about the block enumeration and the expected inserted rows -/

theorem blockList_succ (X Y : Nat) :
    blockList X (Y + 1) =
      blockList X Y ++ (List.range X).map (fun (i : Nat) => ((i : Int), (Y : Int))) := by
  unfold blockList
  rw [List.range_succ, List.flatMap_append]
  simp

theorem blockList_length (X Y : Nat) : (blockList X Y).length = Y * X := by
  induction Y with
  | zero => simp [blockList]
  | succ m ih =>
    rw [blockList_succ, List.length_append, ih, List.length_map, List.length_range]
    ring

theorem blockList_getElem? (X Y n : Nat) (h : n < Y * X) :
    (blockList X Y)[n]? = some (((n % X : Nat) : Int), ((n / X : Nat) : Int)) := by
  induction Y with
  | zero => omega
  | succ m ih =>
    rw [blockList_succ]
    by_cases hn : n < m * X
    · rw [List.getElem?_append_left (by rw [blockList_length]; exact hn)]
      exact ih hn
    · have hlen : (blockList X m).length = m * X := blockList_length X m
      rw [List.getElem?_append_right (by rw [hlen]; omega)]
      have hsub : n - m * X < X := by
        have hA : m * X + X = (m + 1) * X := by ring
        omega
      rw [hlen, List.getElem?_map, List.getElem?_range hsub]
      have hX : 0 < X := by
        rcases Nat.eq_zero_or_pos X with hx | hx
        · subst hx; omega
        · exact hx
      have hdiv : n / X = m := by
        apply Nat.div_eq_of_lt_le
        · omega
        · have : (m + 1) * X = m * X + X := by ring
          omega
      have hmod : n % X = n - m * X := by
        have hmd := Nat.mod_add_div n X
        rw [hdiv] at hmd
        have : X * m = m * X := by ring
        omega
      rw [hmod, hdiv]
      rfl

theorem expectedRows_length (srcName : String) (gt : GeoTransform) (W H bW bH : Int) :
    ∀ (L : List (Int × Int)) (rid : Int) (tid : Nat),
      (expectedRows srcName gt W H bW bH L rid tid).length = L.length := by
  intro L
  induction L with
  | nil => intro rid tid; rfl
  | cons b bs ih => intro rid tid; simp [expectedRows, ih]

theorem expectedRows_getElem? (srcName : String) (gt : GeoTransform) (W H bW bH : Int) :
    ∀ (L : List (Int × Int)) (rid : Int) (tid : Nat) (k : Nat),
      (expectedRows srcName gt W H bW bH L rid tid)[k]? =
        (L[k]?).map (fun b => mkRow srcName gt W H bW bH (rid + (k : Int)) (tid + k) b) := by
  intro L
  induction L with
  | nil => intro rid tid k; simp [expectedRows]
  | cons b bs ih =>
    intro rid tid k
    cases k with
    | zero => simp [expectedRows]
    | succ k' =>
      simp only [expectedRows, List.getElem?_cons_succ]
      rw [ih]
      have h1 : rid + 1 + (k' : Int) = rid + ((k' : Nat) + 1 : Nat) := by push_cast; ring
      have h2 : tid + 1 + k' = tid + (k' + 1) := by omega
      rw [h1, h2]

theorem expectedRows_map_tile (srcName : String) (gt : GeoTransform) (W H bW bH : Int) :
    ∀ (L : List (Int × Int)) (rid : Int) (tid : Nat),
      (expectedRows srcName gt W H bW bH L rid tid).map (fun r => r.tile_id) =
        (List.range L.length).map (fun n => ((tid + n : Nat) : Int)) := by
  intro L
  induction L with
  | nil => intro rid tid; simp [expectedRows]
  | cons b bs ih =>
    intro rid tid
    simp only [expectedRows, List.map_cons, List.length_cons]
    rw [ih, List.range_succ_eq_map, List.map_cons, List.map_map]
    refine congrArg₂ List.cons ?_ ?_
    · simp [mkRow]
    · apply List.map_congr_left
      intro n _
      have h1 : tid + 1 + n = tid + (n + 1) := by omega
      simp [Function.comp, Nat.succ_eq_add_one, h1]

/-! ## Characterization of the block loop and the transaction -/

theorem stepBlock_snd (srcName : String) (gt : GeoTransform) (W H bW bH : Int)
    (orc : BlockOracle) (n : Nat) (b : Int × Int) (db : DBState) :
    (stepBlock srcName gt W H bW bH orc n b db).2 = stepOk orc n := by
  unfold stepBlock stepOk
  cases hr : orc.readOk n <;> cases he : orc.encodeOk n <;>
    cases hir : orc.insertRasterOk n <;> cases him : orc.insertMetadataOk n <;>
    cases hp : orc.progressOk n <;> simp [hr, he, hir, him, hp]

theorem stepBlock_ok (srcName : String) (gt : GeoTransform) (W H bW bH : Int)
    (orc : BlockOracle) (n : Nat) (b : Int × Int) (db : DBState)
    (h : stepOk orc n = true) :
    stepBlock srcName gt W H bW bH orc n b db =
      ({ db with
          rasterRows := db.rasterRows ++ [{ id := db.nextRasterId, blob := orc.blob n }]
          metadataRows := db.metadataRows ++ [mkRow srcName gt W H bW bH db.nextRasterId n b]
          nextRasterId := db.nextRasterId + 1 }, true) := by
  unfold stepOk at h
  simp only [Bool.and_eq_true] at h
  obtain ⟨⟨⟨⟨h1, h2⟩, h3⟩, h4⟩, h5⟩ := h
  unfold stepBlock
  simp [h1, h2, h3, h4, h5]

theorem runLoop_ok_iff (srcName : String) (gt : GeoTransform) (W H bW bH : Int)
    (orc : BlockOracle) :
    ∀ (L : List (Int × Int)) (n0 : Nat) (db : DBState),
      (runLoop (stepBlock srcName gt W H bW bH orc) L n0 db).2 = true ↔
        ∀ k, k < L.length → stepOk orc (n0 + k) = true := by
  intro L
  induction L with
  | nil => intro n0 db; simp [runLoop]
  | cons b bs ih =>
    intro n0 db
    simp only [runLoop]
    rcases hs : stepOk orc n0 with _ | _
    · have hsnd := stepBlock_snd srcName gt W H bW bH orc n0 b db
      rw [hs] at hsnd
      rw [if_neg (by simp [hsnd])]
      simp only [List.length_cons]
      constructor
      · intro hfalse
        simp at hfalse
      · intro hall
        have h0 := hall 0 (by omega)
        rw [Nat.add_zero] at h0
        rw [h0] at hs
        simp at hs
    · have hsnd := stepBlock_snd srcName gt W H bW bH orc n0 b db
      rw [hs] at hsnd
      rw [if_pos (by simp [hsnd])]
      rw [ih (n0 + 1) (stepBlock srcName gt W H bW bH orc n0 b db).1]
      simp only [List.length_cons]
      constructor
      · intro hall k hk
        cases k with
        | zero => rw [Nat.add_zero]; exact hs
        | succ k' =>
          have hh := hall k' (by omega)
          have heq : n0 + 1 + k' = n0 + (k' + 1) := by omega
          rw [heq] at hh
          exact hh
      · intro hall k hk
        have hh := hall (k + 1) (by omega)
        have heq : n0 + (k + 1) = n0 + 1 + k := by omega
        rw [heq] at hh
        exact hh

theorem runLoop_all_ok (srcName : String) (gt : GeoTransform) (W H bW bH : Int)
    (orc : BlockOracle) :
    ∀ (L : List (Int × Int)) (n0 : Nat) (db : DBState),
      (∀ k, k < L.length → stepOk orc (n0 + k) = true) →
      runLoop (stepBlock srcName gt W H bW bH orc) L n0 db =
        ({ db with
            rasterRows := db.rasterRows ++ expectedRasters orc L db.nextRasterId n0
            metadataRows :=
              db.metadataRows ++ expectedRows srcName gt W H bW bH L db.nextRasterId n0
            nextRasterId := db.nextRasterId + (L.length : Int) }, true) := by
  intro L
  induction L with
  | nil =>
    intro n0 db _
    simp [runLoop, expectedRasters, expectedRows]
  | cons b bs ih =>
    intro n0 db hall
    have h0 := hall 0 (by simp)
    rw [Nat.add_zero] at h0
    simp only [runLoop]
    rw [stepBlock_ok srcName gt W H bW bH orc n0 b db h0]
    rw [if_pos rfl]
    rw [ih (n0 + 1) _ (by
      intro k hk
      have hh := hall (k + 1) (by simp only [List.length_cons]; omega)
      have heq : n0 + (k + 1) = n0 + 1 + k := by omega
      rw [heq] at hh
      exact hh)]
    simp only [expectedRasters, expectedRows, List.length_cons, Prod.mk.injEq, and_true]
    refine DBState.mk.injEq .. |>.mpr ?_
    refine ⟨rfl, rfl, rfl, rfl, rfl, ?_, ?_, ?_⟩
    · rw [List.append_assoc]
      simp
    · rw [List.append_assoc]
      simp
    · push_cast
      ring

theorem ingestRun_snd_iff (srcName : String) (gt : GeoTransform) (W H bW bH : Int)
    (orc : BlockOracle) (db : DBState) :
    (ingestRun srcName gt W H bW bH orc db).2 = true ↔
      allStepsOk orc ((numBlocks W bW).toNat * (numBlocks H bH).toNat) := by
  have hiff := runLoop_ok_iff srcName gt W H bW bH orc
    (blockList (numBlocks W bW).toNat (numBlocks H bH).toNat) 0 db
  rw [blockList_length, Nat.mul_comm] at hiff
  simp only [Nat.zero_add] at hiff
  simp only [ingestRun]
  split
  · next hcond =>
      constructor
      · intro _
        exact hiff.mp hcond
      · intro _
        rfl
  · next hcond =>
      constructor
      · intro hfalse
        simp at hfalse
      · intro hall
        exact absurd (hiff.mpr hall) hcond

theorem ingestRun_fail (srcName : String) (gt : GeoTransform) (W H bW bH : Int)
    (orc : BlockOracle) (db : DBState)
    (h : ¬ allStepsOk orc ((numBlocks W bW).toNat * (numBlocks H bH).toNat)) :
    ingestRun srcName gt W H bW bH orc db = (db, false) := by
  have hsnd : ¬ (ingestRun srcName gt W H bW bH orc db).2 = true := by
    rw [ingestRun_snd_iff]
    exact h
  simp only [ingestRun] at hsnd ⊢
  split
  · next hcond => rw [if_pos hcond] at hsnd; simp at hsnd
  · next hcond => rfl

theorem ingestRun_success (srcName : String) (gt : GeoTransform) (W H bW bH : Int)
    (orc : BlockOracle) (db db' : DBState)
    (hrun : ingestRun srcName gt W H bW bH orc db = (db', true)) :
    db' = { db with
      rasterRows := db.rasterRows ++ expectedRasters orc
        (blockList (numBlocks W bW).toNat (numBlocks H bH).toNat) db.nextRasterId 0
      metadataRows := db.metadataRows ++ expectedRows srcName gt W H bW bH
        (blockList (numBlocks W bW).toNat (numBlocks H bH).toNat) db.nextRasterId 0
      nextRasterId := db.nextRasterId +
        (((blockList (numBlocks W bW).toNat (numBlocks H bH).toNat).length : Nat) : Int) } := by
  have hsnd : (ingestRun srcName gt W H bW bH orc db).2 = true := by rw [hrun]
  have hall := (ingestRun_snd_iff srcName gt W H bW bH orc db).mp hsnd
  have hall' : ∀ k, k < (blockList (numBlocks W bW).toNat (numBlocks H bH).toNat).length →
      stepOk orc (0 + k) = true := by
    rw [blockList_length]
    intro k hk
    rw [Nat.zero_add]
    exact hall k (by rw [Nat.mul_comm]; exact hk)
  have hloop := runLoop_all_ok srcName gt W H bW bH orc
    (blockList (numBlocks W bW).toNat (numBlocks H bH).toNat) 0 db hall'
  simp only [ingestRun] at hrun
  rw [hloop] at hrun
  simp only [if_pos] at hrun
  have := (Prod.mk.injEq _ _ _ _).mp hrun
  exact this.1.symm

/-! ## Facts about the setup phase -/

theorem insertSRID_snd (srs : Option SRSInfo) (db : DBState) :
    (rasterliteInsertSRID srs db).2 = db := by
  unfold rasterliteInsertSRID
  dsimp only
  split
  · split
    · split <;> rfl
    · rfl
  · rfl

theorem createTables_rows_noWipe (openOk : Bool) (srid : Int) (db : DBState) :
    (rasterliteCreateTables openOk srid false db).1.rasterRows = db.rasterRows ∧
    (rasterliteCreateTables openOk srid false db).1.metadataRows = db.metadataRows := by
  unfold rasterliteCreateTables
  dsimp only
  split_ifs <;> simp_all [wipeRows]

theorem createTables_noMeta (openOk : Bool) (srid : Int) (wipe : Bool) (db : DBState)
    (hr : db.rasterTableExists = true) (hm : db.metadataTableExists = false) :
    (rasterliteCreateTables openOk srid wipe db).1.rasterTableExists = true ∧
    (rasterliteCreateTables openOk srid wipe db).1.metadataTableExists = false ∧
    (wipe = false →
      (rasterliteCreateTables openOk srid wipe db).1.rasterRows = db.rasterRows ∧
      (rasterliteCreateTables openOk srid wipe db).1.metadataRows = db.metadataRows) := by
  unfold rasterliteCreateTables
  dsimp only
  rw [if_neg (by rw [hr]; simp)]
  split_ifs <;> simp_all [wipeRows]

theorem setupOpened_noMeta (env : Env) (names : String × String) (gt : GeoTransform)
    (bWH : Int × Int) (src : SrcDataset) (opts : List (String × String)) (db0 : DBState)
    (hr : db0.rasterTableExists = true) (hm : db0.metadataTableExists = false) :
    ∃ d, setupOpened env names gt bWH src opts db0 = .error (some d) ∧
      d.rasterTableExists = true ∧ d.metadataTableExists = false ∧
      (cplTestBool (cslFetchNameValueDef opts "WIPE" "NO") = false →
        d.rasterRows = db0.rasterRows ∧ d.metadataRows = db0.metadataRows) := by
  unfold setupOpened
  dsimp only
  rw [insertSRID_snd]
  have hct := createTables_noMeta env.openOk (rasterliteInsertSRID src.srs db0).1
    (cplTestBool (cslFetchNameValueDef opts "WIPE" "NO")) db0 hr hm
  refine ⟨(rasterliteCreateTables env.openOk (rasterliteInsertSRID src.srs db0).1
    (cplTestBool (cslFetchNameValueDef opts "WIPE" "NO")) db0).1, ?_, hct.1, hct.2.1, hct.2.2⟩
  split
  · rfl
  · rw [if_pos (Or.inr hct.2.1)]

theorem setupOpened_ok_db (env : Env) (names : String × String) (gt : GeoTransform)
    (bWH : Int × Int) (src : SrcDataset) (opts : List (String × String)) (db0 : DBState)
    (r : SetupResult) (h : setupOpened env names gt bWH src opts db0 = .ok r) :
    r.db = (rasterliteCreateTables env.openOk (rasterliteInsertSRID src.srs db0).1
      (cplTestBool (cslFetchNameValueDef opts "WIPE" "NO")) db0).1 := by
  unfold setupOpened at h
  dsimp only at h
  rw [insertSRID_snd] at h
  split at h
  · cases h
  · split at h
    · cases h
    · split at h
      · cases h
      · cases h
        rfl

theorem setupOpened_ok_rows (env : Env) (names : String × String) (gt : GeoTransform)
    (bWH : Int × Int) (src : SrcDataset) (opts : List (String × String)) (db0 : DBState)
    (r : SetupResult) (h : setupOpened env names gt bWH src opts db0 = .ok r)
    (hw : cplTestBool (cslFetchNameValueDef opts "WIPE" "NO") = false) :
    r.db.rasterRows = db0.rasterRows ∧ r.db.metadataRows = db0.metadataRows := by
  have hdb := setupOpened_ok_db env names gt bWH src opts db0 r h
  rw [hw] at hdb
  rw [hdb]
  exact createTables_rows_noWipe env.openOk (rasterliteInsertSRID src.srs db0).1 db0

theorem setupPhase_ok_rows (env : Env) (filename : String) (src : SrcDataset)
    (opts : List (String × String)) (store0 : Option DBState) (r : SetupResult)
    (h : setupPhase env filename src opts store0 = .ok r)
    (hw : cplTestBool (cslFetchNameValueDef opts "WIPE" "NO") = false) :
    r.db.rasterRows = priorRasterRows store0 ∧
    r.db.metadataRows = priorMetadataRows store0 := by
  unfold setupPhase at h
  split at h
  · cases h
  · split at h
    · cases h
    · split at h
      · cases h
      · split at h
        · cases h
        · split at h
          · cases h
          · split at h
            · cases h
            · split at h
              · cases h
              · split at h
                · next db0 heq =>
                  split at h
                  · have := setupOpened_ok_rows _ _ _ _ _ _ _ _ h hw
                    simpa [freshDB, priorRasterRows, priorMetadataRows] using this
                  · cases h
                · next db0 heq =>
                  split at h
                  · have := setupOpened_ok_rows _ _ _ _ _ _ _ _ h hw
                    simpa [priorRasterRows, priorMetadataRows] using this
                  · cases h

theorem setupPhase_noMeta (env : Env) (filename : String) (src : SrcDataset)
    (opts : List (String × String)) (db0 : DBState)
    (hr : db0.rasterTableExists = true) (hm : db0.metadataTableExists = false) :
    ∃ d, setupPhase env filename src opts (some db0) = .error (some d) ∧
      d.rasterTableExists = true ∧ d.metadataTableExists = false ∧
      (cplTestBool (cslFetchNameValueDef opts "WIPE" "NO") = false →
        d.rasterRows = db0.rasterRows ∧ d.metadataRows = db0.metadataRows) := by
  unfold setupPhase
  split
  · exact ⟨db0, rfl, hr, hm, fun _ => ⟨rfl, rfl⟩⟩
  · split
    · exact ⟨db0, rfl, hr, hm, fun _ => ⟨rfl, rfl⟩⟩
    · split
      · exact ⟨db0, rfl, hr, hm, fun _ => ⟨rfl, rfl⟩⟩
      · split
        · exact ⟨db0, rfl, hr, hm, fun _ => ⟨rfl, rfl⟩⟩
        · split
          · exact ⟨db0, rfl, hr, hm, fun _ => ⟨rfl, rfl⟩⟩
          · split
            · exact ⟨db0, rfl, hr, hm, fun _ => ⟨rfl, rfl⟩⟩
            · split
              · exact ⟨db0, rfl, hr, hm, fun _ => ⟨rfl, rfl⟩⟩
              · dsimp only
                split
                · exact setupOpened_noMeta env _ _ _ src opts db0 hr hm
                · exact ⟨db0, rfl, hr, hm, fun _ => ⟨rfl, rfl⟩⟩

theorem setupPhase_parse_none (env : Env) (filename : String) (src : SrcDataset)
    (opts : List (String × String)) (store0 : Option DBState)
    (h : parseTarget filename store0.isSome = none) :
    setupPhase env filename src opts store0 = .error store0 := by
  unfold setupPhase
  split
  · rfl
  · split
    · rfl
    · split
      · rfl
      · split
        · rfl
        · split
          · rfl
          · rw [h]

theorem foldl_table_empty (rest : List String)
    (h : ∀ t ∈ rest, startsWithCI t "table=" = false) :
    rest.foldl
      (fun acc t => if startsWithCI t "table=" then String.mk (t.data.drop 6) else acc) "" = "" := by
  suffices hgen : ∀ acc, (∀ t ∈ rest, startsWithCI t "table=" = false) →
      rest.foldl
        (fun acc t => if startsWithCI t "table=" then String.mk (t.data.drop 6) else acc) acc = acc by
    exact hgen "" h
  induction rest with
  | nil => intro acc _; rfl
  | cons t ts ih =>
    intro acc hall
    simp only [List.foldl_cons]
    rw [if_neg (by rw [hall t (by simp)]; simp)]
    exact ih (fun u hu => hall u (by simp [hu])) acc (fun u hu => hall u (by simp [hu]))

theorem newRows_mem (srcName : String) (gt : GeoTransform) (W H bW bH : Int)
    (orc : BlockOracle) (db db' : DBState)
    (hrun : ingestRun srcName gt W H bW bH orc db = (db', true)) :
    ∀ row ∈ newMetadataRows db db',
      ∃ k : Nat, k < (numBlocks H bH).toNat * (numBlocks W bW).toNat ∧
        row = mkRow srcName gt W H bW bH (db.nextRasterId + (k : Int)) k
          (((k % (numBlocks W bW).toNat : Nat) : Int),
           ((k / (numBlocks W bW).toNat : Nat) : Int)) := by
  intro row hmem
  have hdb := ingestRun_success srcName gt W H bW bH orc db db' hrun
  have hnew : newMetadataRows db db' = expectedRows srcName gt W H bW bH
      (blockList (numBlocks W bW).toNat (numBlocks H bH).toNat) db.nextRasterId 0 := by
    rw [hdb]
    show (db.metadataRows ++ _).drop db.metadataRows.length = _
    exact List.drop_left _ _
  rw [hnew] at hmem
  rw [List.mem_iff_getElem] at hmem
  obtain ⟨k, hk, hget⟩ := hmem
  have hk2 : k < (numBlocks H bH).toNat * (numBlocks W bW).toNat := by
    rw [expectedRows_length, blockList_length] at hk
    exact hk
  have hsome := List.getElem?_eq_getElem hk
  rw [hget] at hsome
  rw [expectedRows_getElem?] at hsome
  rw [blockList_getElem? _ _ _ hk2] at hsome
  simp only [Option.map_some'] at hsome
  refine ⟨k, hk2, ?_⟩
  have := hsome.symm
  injection this with hrow
  rw [hrow]
  rw [Nat.zero_add]

theorem clampBlockSize_eq_clamp (n : Int) : clampBlockSize n = max 64 (min 4096 n) := by
  unfold clampBlockSize
  simp only [max_def, min_def]
  split_ifs <;> omega

theorem clampBlockSize_bounds (n : Int) : 64 ≤ clampBlockSize n ∧ clampBlockSize n ≤ 4096 := by
  unfold clampBlockSize
  split_ifs <;> omega

/-! ## Claim theorems -/

/-- C8: when the TILED option is true (its default — in particular whenever
the option is absent), the block dimensions are the BLOCKXSIZE/BLOCKYSIZE
option values (default 256) clamped independently in each axis to
[64, 4096]; when TILED is false, the block dimensions are the full raster
dimensions, unclamped, and each axis has exactly one block. -/
theorem claim8_theorem (opts : List (String × String)) (W H : Int) :
    (cslFetchNameValue opts "TILED" = none →
      cplTestBool (cslFetchNameValueDef opts "TILED" "YES") = true) ∧
    (cplTestBool (cslFetchNameValueDef opts "TILED" "YES") = true →
      (blockSizes opts W H).1 =
        max 64 (min 4096 (atoi (cslFetchNameValueDef opts "BLOCKXSIZE" "256"))) ∧
      (blockSizes opts W H).2 =
        max 64 (min 4096 (atoi (cslFetchNameValueDef opts "BLOCKYSIZE" "256"))) ∧
      (64 ≤ (blockSizes opts W H).1 ∧ (blockSizes opts W H).1 ≤ 4096) ∧
      (64 ≤ (blockSizes opts W H).2 ∧ (blockSizes opts W H).2 ≤ 4096) ∧
      (cslFetchNameValue opts "BLOCKXSIZE" = none → (blockSizes opts W H).1 = 256) ∧
      (cslFetchNameValue opts "BLOCKYSIZE" = none → (blockSizes opts W H).2 = 256)) ∧
    (cplTestBool (cslFetchNameValueDef opts "TILED" "YES") = false →
      blockSizes opts W H = (W, H) ∧
      (0 < W → numBlocks W W = 1) ∧ (0 < H → numBlocks H H = 1)) := by
  refine ⟨?_, ?_, ?_⟩
  · intro h
    unfold cslFetchNameValueDef
    rw [h]
    decide
  · intro ht
    unfold blockSizes
    rw [if_pos ht]
    refine ⟨clampBlockSize_eq_clamp _, clampBlockSize_eq_clamp _,
      clampBlockSize_bounds _, clampBlockSize_bounds _, ?_, ?_⟩
    · intro hx
      unfold cslFetchNameValueDef
      rw [hx]
      show clampBlockSize (atoi ((none : Option String).getD "256")) = 256
      decide
    · intro hy
      unfold cslFetchNameValueDef
      rw [hy]
      show clampBlockSize (atoi ((none : Option String).getD "256")) = 256
      decide
  · intro hf
    unfold blockSizes
    rw [if_neg (by rw [hf]; simp)]
    exact ⟨rfl, fun hW => numBlocks_self hW, fun hH => numBlocks_self hH⟩

/-- C8 witness: with `TILED=NO` a 5×7 raster gets one unclamped 5×7 block;
with no options the tiled default applies and both block dimensions are
256. -/
theorem claim8_witness :
    cplTestBool (cslFetchNameValueDef [("TILED", "NO")] "TILED" "YES") = false ∧
    blockSizes [("TILED", "NO")] 5 7 = (5, 7) ∧
    numBlocks 5 5 = 1 ∧
    cplTestBool (cslFetchNameValueDef ([] : List (String × String)) "TILED" "YES") = true ∧
    (blockSizes ([] : List (String × String)) 5 7).1 = 256 ∧
    (blockSizes ([] : List (String × String)) 5 7).2 = 256 := by
  have h1 := claim8_theorem [("TILED", "NO")] 5 7
  have h2 := claim8_theorem ([] : List (String × String)) 5 7
  refine ⟨by decide, (h1.2.2 (by decide)).1, (h1.2.2 (by decide)).2.1 (by decide), ?_, ?_, ?_⟩
  · exact h2.1 (by decide)
  · exact (h2.2.1 (h2.1 (by decide))).2.2.2.2.1 (by decide)
  · exact (h2.2.1 (h2.1 (by decide))).2.2.2.2.2 (by decide)

/-- C4 counterexample: with the registry table present (spatialite store)
but containing no row for authority code 32633, the registrar returns −1 and
inserts nothing — the claim instead demands that it insert a registry row
with SRID 32633 and return 32633.  The claim's reading of the lookup's null
result is wrong: `ExecuteSQL` of a valid SELECT on an existing table yields
a (possibly empty) result layer, so the code's null branch — the one that
would insert and return the authority code — runs only when the registry
table itself is missing. -/
theorem claim4_counterexample :
    srsUTM.authorityCode = 32633 ∧ srsUTM.authorityName ≠ "" ∧
    dbReady.spatialite = true ∧ dbReady.srsRows = [] ∧
    (rasterliteInsertSRID (some srsUTM) dbReady).1 = -1 ∧
    (rasterliteInsertSRID (some srsUTM) dbReady).2.srsRows = [] ∧
    ¬ (rasterliteInsertSRID (some srsUTM) dbReady).1 = 32633 := by
  refine ⟨by decide, by decide, by decide, by decide, by decide, by decide, by decide⟩

/-- C4 (amended): the registrar never mutates the registry.  For an
absent/empty descriptor, a zero authority code, or an empty authority name
it returns −1; with a usable authority and the registry table present, a
lookup hit returns the found row's SRID and a lookup miss returns −1
(without inserting); only when the registry table is missing (the lookup
query itself fails) does it return the authority code, and the insert it
then attempts has no effect because the table is absent. -/
theorem claim4_theorem (srs : Option SRSInfo) (db : DBState) :
    (rasterliteInsertSRID srs db).2 = db ∧
    (authCodeOf srs = 0 ∨ authNameOf srs = "" → (rasterliteInsertSRID srs db).1 = -1) ∧
    (authCodeOf srs ≠ 0 → authNameOf srs ≠ "" → db.spatialite = true →
      (∀ row, db.srsRows.find? (fun r => r.auth_srid == authCodeOf srs) = some row →
        (rasterliteInsertSRID srs db).1 = row.srid) ∧
      (db.srsRows.find? (fun r => r.auth_srid == authCodeOf srs) = none →
        (rasterliteInsertSRID srs db).1 = -1)) ∧
    (authCodeOf srs ≠ 0 → authNameOf srs ≠ "" → db.spatialite = false →
      (rasterliteInsertSRID srs db).1 = authCodeOf srs) := by
  refine ⟨insertSRID_snd srs db, ?_, ?_, ?_⟩
  · intro h
    unfold rasterliteInsertSRID
    dsimp only
    rw [if_neg (by tauto)]
  · intro hc hn hsp
    constructor
    · intro row hfind
      unfold rasterliteInsertSRID
      dsimp only
      rw [if_pos ⟨hc, hn⟩, if_pos hsp, hfind]
    · intro hfind
      unfold rasterliteInsertSRID
      dsimp only
      rw [if_pos ⟨hc, hn⟩, if_pos hsp, hfind]
  · intro hc hn hsp
    unfold rasterliteInsertSRID
    dsimp only
    rw [if_pos ⟨hc, hn⟩, if_neg (by rw [hsp]; simp)]

/-- C4 witness: lookup hit in a one-row registry returns the stored SRID
without mutating the store; the degenerate empty descriptor returns −1. -/
theorem claim4_witness :
    (rasterliteInsertSRID (some srsUTM)
      { dbReady with srsRows := [{ srid := 7, auth_name := "EPSG", auth_srid := 32633,
                                   proj4text := "" }] }).1 = 7 ∧
    (rasterliteInsertSRID (some srsUTM)
      { dbReady with srsRows := [{ srid := 7, auth_name := "EPSG", auth_srid := 32633,
                                   proj4text := "" }] }).2 =
      { dbReady with srsRows := [{ srid := 7, auth_name := "EPSG", auth_srid := 32633,
                                   proj4text := "" }] } ∧
    (rasterliteInsertSRID none dbReady).1 = -1 := by
  have h := claim4_theorem (some srsUTM)
    { dbReady with srsRows := [{ srid := 7, auth_name := "EPSG", auth_srid := 32633,
                                 proj4text := "" }] }
  have h0 := claim4_theorem none dbReady
  refine ⟨?_, h.1, h0.2.1 (Or.inl (by decide))⟩
  exact (h.2.2.1 (by decide) (by decide) (by decide)).1
    { srid := 7, auth_name := "EPSG", auth_srid := 32633, proj4text := "" } (by decide)

/-- C5: ingesting into an existing table pair whose metadata geometry
column is bound to a different SRID than the new data's SRID fails with the
SRS-mismatch error when WIPE is not set, leaving the store — in particular
every pre-existing row of both tables — completely unchanged (the failure
happens before any row insertion); with WIPE set, the bound SRID is instead
updated in place, the store is reopened (a reopen failure fails the
operation after the SRID update), and the wipe then empties both tables. -/
theorem claim5_theorem (db : DBState) (srid s : Int)
    (hr : db.rasterTableExists = true) (hm : db.metadataTableExists = true)
    (hsp : db.spatialite = true) (hg : db.geometrySrid = some s) (hne : s ≠ srid) :
    (∀ openOk, rasterliteCreateTables openOk srid false db = (db, false)) ∧
    rasterliteCreateTables true srid true db =
      ({ db with geometrySrid := some srid, rasterRows := [], metadataRows := [] }, true) ∧
    rasterliteCreateTables false srid true db =
      ({ db with geometrySrid := some srid }, false) := by
  have hcond : db.spatialite = true ∧ db.geometrySrid.getD (-1) ≠ srid := by
    rw [hsp, hg]
    exact ⟨rfl, by simpa using hne⟩
  refine ⟨?_, ?_, ?_⟩
  · intro openOk
    unfold rasterliteCreateTables
    dsimp only
    rw [if_neg (by rw [hr]; simp), if_pos hcond, if_neg (by simp)]
  · unfold rasterliteCreateTables
    dsimp only
    rw [if_neg (by rw [hr]; simp), if_pos hcond, if_pos rfl, if_pos rfl]
    unfold wipeRows
    rw [hg]
    simp [hr, hm]
  · unfold rasterliteCreateTables
    dsimp only
    rw [if_neg (by rw [hr]; simp), if_pos hcond, if_pos rfl, if_neg (by simp)]
    rw [hg]
    simp

/-- C5 witness: a populated pair bound to SRID 4326 receiving data with
SRID −1 is rejected unchanged without WIPE, and has its binding updated (and
rows wiped) with WIPE. -/
theorem claim5_witness :
    dbBound4326.geometrySrid = some 4326 ∧
    dbBound4326.rasterRows ≠ [] ∧
    rasterliteCreateTables true (-1) false dbBound4326 = (dbBound4326, false) ∧
    rasterliteCreateTables true (-1) true dbBound4326 =
      ({ dbBound4326 with geometrySrid := some (-1), rasterRows := [], metadataRows := [] },
        true) := by
  have h := claim5_theorem dbBound4326 (-1) 4326 (by decide) (by decide) (by decide)
    (by decide) (by decide)
  exact ⟨by decide, by decide, h.1 true, h.2.1⟩

/-- C2: a committed ingestion run over a raster of width `W` and height `H`
with block dimensions `bW`, `bH` appends exactly
`⌈W / bW⌉ * ⌈H / bH⌉` metadata rows after the rows present at BEGIN, and
the appended rows carry tile_id values exactly 0, 1, …, N−1 in insertion
order — which is the loop's row-major block order (inner loop over block
columns, outer loop over block rows). -/
theorem claim2_theorem (srcName : String) (gt : GeoTransform) (W H bW bH : Int)
    (orc : BlockOracle) (db db' : DBState)
    (hW : 0 ≤ W) (hH : 0 ≤ H) (hbW : 0 < bW) (hbH : 0 < bH)
    (hrun : ingestRun srcName gt W H bW bH orc db = (db', true)) :
    db'.metadataRows.take db.metadataRows.length = db.metadataRows ∧
    ((newMetadataRows db db').length : Int) = ⌈(W : ℚ) / (bW : ℚ)⌉ * ⌈(H : ℚ) / (bH : ℚ)⌉ ∧
    (newMetadataRows db db').map (fun row => row.tile_id) =
      (List.range (newMetadataRows db db').length).map (fun (n : Nat) => (n : Int)) := by
  have hdb := ingestRun_success srcName gt W H bW bH orc db db' hrun
  have hmeta : db'.metadataRows = db.metadataRows ++ expectedRows srcName gt W H bW bH
      (blockList (numBlocks W bW).toNat (numBlocks H bH).toNat) db.nextRasterId 0 := by
    rw [hdb]
  have hnew : newMetadataRows db db' = expectedRows srcName gt W H bW bH
      (blockList (numBlocks W bW).toNat (numBlocks H bH).toNat) db.nextRasterId 0 := by
    unfold newMetadataRows
    rw [hmeta]
    exact List.drop_left _ _
  refine ⟨?_, ?_, ?_⟩
  · rw [hmeta, List.take_left]
  · rw [hnew, expectedRows_length, blockList_length]
    push_cast
    rw [Int.toNat_of_nonneg (numBlocks_nonneg hW hbW),
      Int.toNat_of_nonneg (numBlocks_nonneg hH hbH),
      numBlocks_eq_ceil hW hbW, numBlocks_eq_ceil hH hbH]
    ring
  · rw [hnew, expectedRows_map_tile, expectedRows_length]
    simp

/-- C2 witness: a committed 2×1 run with 1×1 blocks appends
⌈2/1⌉*⌈1/1⌉ = 2 rows with tile_id [0, 1]. -/
theorem claim2_witness :
    ingestRun "src" gtN 2 1 1 1 orcAll dbReady =
      ((ingestRun "src" gtN 2 1 1 1 orcAll dbReady).1, true) ∧
    ((newMetadataRows dbReady (ingestRun "src" gtN 2 1 1 1 orcAll dbReady).1).length : Int) =
      ⌈(2 : ℚ) / (1 : ℚ)⌉ * ⌈(1 : ℚ) / (1 : ℚ)⌉ ∧
    (newMetadataRows dbReady
        (ingestRun "src" gtN 2 1 1 1 orcAll dbReady).1).map (fun row => row.tile_id) =
      (List.range (newMetadataRows dbReady
        (ingestRun "src" gtN 2 1 1 1 orcAll dbReady).1).length).map (fun (n : Nat) => (n : Int)) := by
  have hsnd : (ingestRun "src" gtN 2 1 1 1 orcAll dbReady).2 = true := by decide
  have hrun : ingestRun "src" gtN 2 1 1 1 orcAll dbReady =
      ((ingestRun "src" gtN 2 1 1 1 orcAll dbReady).1, true) := by
    calc ingestRun "src" gtN 2 1 1 1 orcAll dbReady
        = ((ingestRun "src" gtN 2 1 1 1 orcAll dbReady).1,
           (ingestRun "src" gtN 2 1 1 1 orcAll dbReady).2) := rfl
      _ = ((ingestRun "src" gtN 2 1 1 1 orcAll dbReady).1, true) := by rw [hsnd]
  have h := claim2_theorem "src" gtN 2 1 1 1 orcAll dbReady
    (ingestRun "src" gtN 2 1 1 1 orcAll dbReady).1
    (by decide) (by decide) (by decide) (by decide) hrun
  exact ⟨hrun, h.2.1, h.2.2⟩

/-- C3: in a committed run, every appended metadata row — the row of the
block at column `bx = tile_id % numXBlocks` and row `by = tile_id /
numXBlocks` with actual pixel size (width, height) — stores the world
rectangle `minx = x0 + bx*blockW*px`, `maxx = x0 + (bx*blockW + w)*px`,
`maxy = y0 + by*blockH*py`, `miny = y0 + (by*blockH + h)*py`, where
`(x0, y0) = (gt0, gt3)`, `px = gt1`, and `py = gt5` is the signed vertical
coefficient. -/
theorem claim3_theorem (srcName : String) (gt : GeoTransform) (W H bW bH : Int)
    (orc : BlockOracle) (db db' : DBState)
    (hW : 0 ≤ W) (hbW : 0 < bW)
    (hrun : ingestRun srcName gt W H bW bH orc db = (db', true)) :
    ∀ row ∈ newMetadataRows db db',
      row.geometry.minx =
        gt.gt0 + ((row.tile_id % numBlocks W bW : Int) : ℚ) * (bW : ℚ) * gt.gt1 ∧
      row.geometry.maxx =
        gt.gt0 + (((row.tile_id % numBlocks W bW) * bW + row.width : Int) : ℚ) * gt.gt1 ∧
      row.geometry.maxy =
        gt.gt3 + ((row.tile_id / numBlocks W bW : Int) : ℚ) * (bH : ℚ) * gt.gt5 ∧
      row.geometry.miny =
        gt.gt3 + (((row.tile_id / numBlocks W bW) * bH + row.height : Int) : ℚ) * gt.gt5 := by
  intro row hmem
  obtain ⟨k, hk, hrow⟩ := newRows_mem srcName gt W H bW bH orc db db' hrun row hmem
  have hX := numBlocks_nonneg hW hbW
  have hcastX : (((numBlocks W bW).toNat : Nat) : Int) = numBlocks W bW :=
    Int.toNat_of_nonneg hX
  have hmod : ((k % (numBlocks W bW).toNat : Nat) : Int) = (k : Int) % numBlocks W bW := by
    rw [Int.ofNat_emod, hcastX]
  have hdiv : ((k / (numBlocks W bW).toNat : Nat) : Int) = (k : Int) / numBlocks W bW := by
    rw [Int.ofNat_ediv, hcastX]
  subst hrow
  simp only [mkRow, blockRect]
  rw [← hmod, ← hdiv]
  refine ⟨?_, ?_, ?_, ?_⟩ <;> push_cast <;> ring

/-- C3 witness: the rectangle formulas hold for both rows of a committed
2×1 run with 1×1 blocks under the north-up transform. -/
theorem claim3_witness :
    ingestRun "src" gtN 2 1 1 1 orcAll dbReady =
      ((ingestRun "src" gtN 2 1 1 1 orcAll dbReady).1, true) ∧
    ∀ row ∈ newMetadataRows dbReady (ingestRun "src" gtN 2 1 1 1 orcAll dbReady).1,
      row.geometry.minx =
        gtN.gt0 + ((row.tile_id % numBlocks 2 1 : Int) : ℚ) * ((1 : Int) : ℚ) * gtN.gt1 ∧
      row.geometry.maxx =
        gtN.gt0 + (((row.tile_id % numBlocks 2 1) * 1 + row.width : Int) : ℚ) * gtN.gt1 ∧
      row.geometry.maxy =
        gtN.gt3 + ((row.tile_id / numBlocks 2 1 : Int) : ℚ) * ((1 : Int) : ℚ) * gtN.gt5 ∧
      row.geometry.miny =
        gtN.gt3 + (((row.tile_id / numBlocks 2 1) * 1 + row.height : Int) : ℚ) * gtN.gt5 := by
  have hsnd : (ingestRun "src" gtN 2 1 1 1 orcAll dbReady).2 = true := by decide
  have hrun : ingestRun "src" gtN 2 1 1 1 orcAll dbReady =
      ((ingestRun "src" gtN 2 1 1 1 orcAll dbReady).1, true) := by
    calc ingestRun "src" gtN 2 1 1 1 orcAll dbReady
        = ((ingestRun "src" gtN 2 1 1 1 orcAll dbReady).1,
           (ingestRun "src" gtN 2 1 1 1 orcAll dbReady).2) := rfl
      _ = ((ingestRun "src" gtN 2 1 1 1 orcAll dbReady).1, true) := by rw [hsnd]
  exact ⟨hrun, claim3_theorem "src" gtN 2 1 1 1 orcAll dbReady
    (ingestRun "src" gtN 2 1 1 1 orcAll dbReady).1 (by decide) (by decide) hrun⟩

/-- C6 counterexample: the south-up 1×1 source (gt5 = 1, no rotational
terms) is accepted — the full pipeline commits — and the single metadata
row stores pixel_y_size = −1, which is negative and differs from
|gt5| = 1.  The code stores the negation of gt5 (line 669), not its
absolute value, so the stored value is positive only for north-up inputs. -/
theorem claim6_counterexample :
    (rasterliteCreateCopy envAll "/tmp/south.sqlite" srcSouth [] none orcAll).isCommitted =
      true ∧
    ((rasterliteCreateCopy envAll "/tmp/south.sqlite" srcSouth [] none orcAll).finalStore.map
      (fun d => d.metadataRows.map (fun row => row.pixel_y_size))) = some [-1] ∧
    gtS.gt5 = 1 ∧
    ¬ ((-1 : ℚ) = |gtS.gt5|) ∧
    ¬ (0 < (-1 : ℚ)) := by
  refine ⟨by decide, by decide, by decide, by decide, by decide⟩

/-- C6 (amended): every metadata row appended by a committed run stores
pixel_y_size equal to the negation of the geotransform's signed vertical
coefficient gt5; this equals |gt5| and is positive exactly for the usual
north-up case gt5 < 0 (which includes the substituted default transform),
while an accepted south-up raster (gt5 > 0) gets a negative stored value. -/
theorem claim6_theorem (srcName : String) (gt : GeoTransform) (W H bW bH : Int)
    (orc : BlockOracle) (db db' : DBState)
    (hrun : ingestRun srcName gt W H bW bH orc db = (db', true)) :
    ∀ row ∈ newMetadataRows db db',
      row.pixel_y_size = -gt.gt5 ∧
      (gt.gt5 < 0 → row.pixel_y_size = |gt.gt5| ∧ 0 < row.pixel_y_size) ∧
      (0 < gt.gt5 → row.pixel_y_size < 0) := by
  intro row hmem
  obtain ⟨k, hk, hrow⟩ := newRows_mem srcName gt W H bW bH orc db db' hrun row hmem
  subst hrow
  simp only [mkRow]
  refine ⟨trivial, ?_, ?_⟩
  · intro h5
    constructor
    · rw [abs_of_neg h5]
    · exact neg_pos.mpr h5
  · intro h5
    exact neg_neg_iff_pos.mpr h5

/-- C6 witness: in the committed north-up run (gt5 = −10) every appended
row stores pixel_y_size = 10 = |−10| > 0. -/
theorem claim6_witness :
    ingestRun "src" gtN 2 1 1 1 orcAll dbReady =
      ((ingestRun "src" gtN 2 1 1 1 orcAll dbReady).1, true) ∧
    gtN.gt5 < 0 ∧
    ∀ row ∈ newMetadataRows dbReady (ingestRun "src" gtN 2 1 1 1 orcAll dbReady).1,
      row.pixel_y_size = -gtN.gt5 ∧
      (gtN.gt5 < 0 → row.pixel_y_size = |gtN.gt5| ∧ 0 < row.pixel_y_size) ∧
      (0 < gtN.gt5 → row.pixel_y_size < 0) := by
  have hsnd : (ingestRun "src" gtN 2 1 1 1 orcAll dbReady).2 = true := by decide
  have hrun : ingestRun "src" gtN 2 1 1 1 orcAll dbReady =
      ((ingestRun "src" gtN 2 1 1 1 orcAll dbReady).1, true) := by
    calc ingestRun "src" gtN 2 1 1 1 orcAll dbReady
        = ((ingestRun "src" gtN 2 1 1 1 orcAll dbReady).1,
           (ingestRun "src" gtN 2 1 1 1 orcAll dbReady).2) := rfl
      _ = ((ingestRun "src" gtN 2 1 1 1 orcAll dbReady).1, true) := by rw [hsnd]
  exact ⟨hrun, by decide, claim6_theorem "src" gtN 2 1 1 1 orcAll dbReady
    (ingestRun "src" gtN 2 1 1 1 orcAll dbReady).1 hrun⟩

/-- C7: every metadata row of a committed run has width ≤ blockW and
height ≤ blockH; the width equals blockW for every block except possibly
those in the last block-column (`tile_id % numXBlocks` is the block column),
where it equals `W mod blockW`, or blockW when that remainder is zero — and
analogously for the height in the last block-row. -/
theorem claim7_theorem (srcName : String) (gt : GeoTransform) (W H bW bH : Int)
    (orc : BlockOracle) (db db' : DBState)
    (hW : 0 ≤ W) (hH : 0 ≤ H) (hbW : 0 < bW) (hbH : 0 < bH)
    (hrun : ingestRun srcName gt W H bW bH orc db = (db', true)) :
    ∀ row ∈ newMetadataRows db db',
      row.width ≤ bW ∧ row.height ≤ bH ∧
      (row.tile_id % numBlocks W bW + 1 < numBlocks W bW → row.width = bW) ∧
      (row.tile_id % numBlocks W bW + 1 = numBlocks W bW →
        row.width = if W % bW = 0 then bW else W % bW) ∧
      (row.tile_id / numBlocks W bW + 1 < numBlocks H bH → row.height = bH) ∧
      (row.tile_id / numBlocks W bW + 1 = numBlocks H bH →
        row.height = if H % bH = 0 then bH else H % bH) := by
  intro row hmem
  obtain ⟨k, hk, hrow⟩ := newRows_mem srcName gt W H bW bH orc db db' hrun row hmem
  have hX := numBlocks_nonneg hW hbW
  have hcastX : (((numBlocks W bW).toNat : Nat) : Int) = numBlocks W bW :=
    Int.toNat_of_nonneg hX
  have hmod : ((k % (numBlocks W bW).toNat : Nat) : Int) = (k : Int) % numBlocks W bW := by
    rw [Int.ofNat_emod, hcastX]
  have hdiv : ((k / (numBlocks W bW).toNat : Nat) : Int) = (k : Int) / numBlocks W bW := by
    rw [Int.ofNat_ediv, hcastX]
  subst hrow
  simp only [mkRow]
  refine ⟨reqSize_le hbW, reqSize_le hbH, ?_, ?_, ?_, ?_⟩
  · intro h
    rw [← hmod] at h
    exact reqSize_eq_of_not_last hW hbW h
  · intro h
    rw [← hmod] at h
    exact reqSize_last hW hbW h
  · intro h
    rw [← hdiv] at h
    exact reqSize_eq_of_not_last hH hbH h
  · intro h
    rw [← hdiv] at h
    exact reqSize_last hH hbH h

/-- C7 witness: committed 5×1 run with 2×1 blocks — numXBlocks = 3, the
first two columns have width 2 and the last column width 5 mod 2 = 1. -/
theorem claim7_witness :
    ingestRun "src" gtN 5 1 2 1 orcAll dbReady =
      ((ingestRun "src" gtN 5 1 2 1 orcAll dbReady).1, true) ∧
    (newMetadataRows dbReady
      (ingestRun "src" gtN 5 1 2 1 orcAll dbReady).1).map (fun row => row.width) =
      [2, 2, 1] ∧
    ∀ row ∈ newMetadataRows dbReady (ingestRun "src" gtN 5 1 2 1 orcAll dbReady).1,
      row.width ≤ 2 ∧ row.height ≤ 1 ∧
      (row.tile_id % numBlocks 5 2 + 1 < numBlocks 5 2 → row.width = 2) ∧
      (row.tile_id % numBlocks 5 2 + 1 = numBlocks 5 2 →
        row.width = if (5 : Int) % 2 = 0 then 2 else (5 : Int) % 2) ∧
      (row.tile_id / numBlocks 5 2 + 1 < numBlocks 1 1 → row.height = 1) ∧
      (row.tile_id / numBlocks 5 2 + 1 = numBlocks 1 1 →
        row.height = if (1 : Int) % 1 = 0 then 1 else (1 : Int) % 1) := by
  have hsnd : (ingestRun "src" gtN 5 1 2 1 orcAll dbReady).2 = true := by decide
  have hrun : ingestRun "src" gtN 5 1 2 1 orcAll dbReady =
      ((ingestRun "src" gtN 5 1 2 1 orcAll dbReady).1, true) := by
    calc ingestRun "src" gtN 5 1 2 1 orcAll dbReady
        = ((ingestRun "src" gtN 5 1 2 1 orcAll dbReady).1,
           (ingestRun "src" gtN 5 1 2 1 orcAll dbReady).2) := rfl
      _ = ((ingestRun "src" gtN 5 1 2 1 orcAll dbReady).1, true) := by rw [hsnd]
  exact ⟨hrun, by decide, claim7_theorem "src" gtN 5 1 2 1 orcAll dbReady
    (ingestRun "src" gtN 5 1 2 1 orcAll dbReady).1
    (by decide) (by decide) (by decide) (by decide) hrun⟩

/-- C1 counterexample: with `WIPE=YES` and a forced encode failure at the
first block, the run fails (null return) and the transaction is rolled back,
yet the metadata row from the prior successful run is gone afterwards: the
wipe's DELETE statements run during setup, before `BEGIN`, so the rollback
does not restore them.  The claim's assertion that "rows from prior
successful runs are untouched" by a failed run therefore does not hold
unconditionally. -/
theorem claim1_counterexample :
    (rasterliteCreateCopy envAll "/tmp/sample.sqlite,table=sample" srcTwo [("WIPE", "YES")]
      (some dbPrior) orcNoEncode).returnedStore = none ∧
    ((rasterliteCreateCopy envAll "/tmp/sample.sqlite,table=sample" srcTwo [("WIPE", "YES")]
      (some dbPrior) orcNoEncode).finalStore.map (fun d => d.metadataRows)) = some [] ∧
    dbPrior.metadataRows = [rowPrior] ∧
    ((some [rowPrior] : Option (List MetadataRow)) ≠ some []) := by
  refine ⟨by decide, by decide, by decide, by decide⟩

/-- C1 (amended): for every run that reaches the transaction (setup
succeeded with result `r`), the transaction commits iff every per-block
step — window read, encode, raster-row insert, metadata-row insert — of
all `numXBlocks * numYBlocks` blocks succeeds and the progress callback
never signals stop; on any such failure or cancellation the transaction is
rolled back, the operation returns the null sentinel, and the store is left
exactly in its pre-transaction state `r.db`, so no tile or metadata row
from the failed run is visible.  Rows from prior successful runs are
untouched provided the WIPE option is not set (WIPE deletes them during
setup, outside the transaction). -/
theorem claim1_theorem (env : Env) (filename : String) (src : SrcDataset)
    (opts : List (String × String)) (store0 : Option DBState) (orc : BlockOracle)
    (r : SetupResult) (hsetup : setupPhase env filename src opts store0 = .ok r) :
    ((∃ db', rasterliteCreateCopy env filename src opts store0 orc = .committed db') ↔
      allStepsOk orc
        ((numBlocks src.nXSize r.blockX).toNat * (numBlocks src.nYSize r.blockY).toNat)) ∧
    (¬ allStepsOk orc
        ((numBlocks src.nXSize r.blockX).toNat * (numBlocks src.nYSize r.blockY).toNat) →
      rasterliteCreateCopy env filename src opts store0 orc = .rolledBack r.db ∧
      (rasterliteCreateCopy env filename src opts store0 orc).returnedStore = none) ∧
    (cplTestBool (cslFetchNameValueDef opts "WIPE" "NO") = false →
      r.db.rasterRows = priorRasterRows store0 ∧
      r.db.metadataRows = priorMetadataRows store0) := by
  have hcopy : rasterliteCreateCopy env filename src opts store0 orc =
      (if (ingestRun src.description r.gt src.nXSize src.nYSize r.blockX r.blockY orc r.db).2
        then .committed
          (ingestRun src.description r.gt src.nXSize src.nYSize r.blockX r.blockY orc r.db).1
        else .rolledBack
          (ingestRun src.description r.gt src.nXSize src.nYSize r.blockX r.blockY orc r.db).1) := by
    unfold rasterliteCreateCopy
    rw [hsetup]
  refine ⟨?_, ?_, fun hw => setupPhase_ok_rows env filename src opts store0 r hsetup hw⟩
  · rw [hcopy]
    constructor
    · rintro ⟨db', hdb'⟩
      by_cases hp :
        (ingestRun src.description r.gt src.nXSize src.nYSize r.blockX r.blockY orc r.db).2 = true
      · exact (ingestRun_snd_iff src.description r.gt src.nXSize src.nYSize r.blockX r.blockY
          orc r.db).mp hp
      · rw [if_neg hp] at hdb'
        cases hdb'
    · intro hall
      have hp := (ingestRun_snd_iff src.description r.gt src.nXSize src.nYSize r.blockX r.blockY
        orc r.db).mpr hall
      rw [if_pos hp]
      exact ⟨_, rfl⟩
  · intro hnot
    have hfail := ingestRun_fail src.description r.gt src.nXSize src.nYSize r.blockX r.blockY
      orc r.db hnot
    rw [hcopy, hfail]
    exact ⟨rfl, rfl⟩

/-- C1 witness: the progress callback cancels at the first block of a fresh
ingestion; the run is rolled back to its pre-transaction state (the
newly created, empty tables) and returns null. -/
theorem claim1_witness :
    setupPhase envAll "/tmp/sample.sqlite" srcTwo [] none = .ok setupTwo ∧
    ¬ allStepsOk orcStop
      ((numBlocks srcTwo.nXSize setupTwo.blockX).toNat *
        (numBlocks srcTwo.nYSize setupTwo.blockY).toNat) ∧
    rasterliteCreateCopy envAll "/tmp/sample.sqlite" srcTwo [] none orcStop =
      .rolledBack setupTwo.db ∧
    (rasterliteCreateCopy envAll "/tmp/sample.sqlite" srcTwo [] none orcStop).returnedStore =
      none ∧
    setupTwo.db.metadataRows = priorMetadataRows none := by
  have hsetup : setupPhase envAll "/tmp/sample.sqlite" srcTwo [] none = .ok setupTwo := by
    decide
  have h := claim1_theorem envAll "/tmp/sample.sqlite" srcTwo [] none orcStop setupTwo hsetup
  have hnot : ¬ allStepsOk orcStop
      ((numBlocks srcTwo.nXSize setupTwo.blockX).toNat *
        (numBlocks srcTwo.nYSize setupTwo.blockY).toNat) := by
    intro hall
    have h0 := hall 0 (by decide)
    revert h0
    decide
  exact ⟨hsetup, hnot, (h.2.1 hnot).1, (h.2.1 hnot).2, (h.2.2 (by decide)).2⟩

/-- C9 counterexample: the target specifier `","` names an existing store
file and supplies no `table=` token, yet the operation does not fail with
the ambiguous-target error — it proceeds and commits.  The tokenizer drops
empty tokens, so this specifier yields zero tokens, and in the zero-token
branch the table name is taken from the specifier's base name (here the
non-empty string `","`), bypassing the store-exists ambiguity check. -/
theorem claim9_counterexample :
    tokenize ',' (stripScheme ",") = [] ∧
    parseTarget "," true = some (",", ",") ∧
    (rasterliteCreateCopy envAll "," srcTwo [] (some (freshDB envAll)) orcAll).isCommitted =
      true ∧
    (rasterliteCreateCopy envAll "," srcTwo [] (some (freshDB envAll)) orcAll).returnedStore ≠
      none := by
  refine ⟨by decide, by decide, by decide, by decide⟩

/-- C9 (amended): for every target specifier whose store path yields at
least one comma-separated token and that supplies no `table=` token, the
operation fails (with the ambiguous-target error, before any store
mutation — the store is left exactly as it was) when the store file already
exists; when it does not exist, the table-name prefix defaults to the store
path's base name.  Degenerate specifiers yielding zero tokens (only commas,
or empty) instead take the prefix from the specifier's base name without
the existence check. -/
theorem claim9_theorem (filename t0 : String) (rest : List String)
    (htok : tokenize ',' (stripScheme filename) = t0 :: rest)
    (hnotab : ∀ t ∈ rest, startsWithCI t "table=" = false) :
    parseTarget filename true = none ∧
    parseTarget filename false = some (t0, cplGetBasename t0) ∧
    (∀ (env : Env) (src : SrcDataset) (opts : List (String × String))
        (store0 : Option DBState),
      parseTarget filename store0.isSome = none →
      setupPhase env filename src opts store0 = .error store0) := by
  have hparse : ∀ fileExists : Bool, parseTarget filename fileExists =
      (if fileExists then none else some (t0, cplGetBasename t0)) := by
    intro fileExists
    unfold parseTarget
    dsimp only
    rw [htok]
    dsimp only
    rw [foldl_table_empty rest hnotab]
    rw [if_pos rfl]
  refine ⟨?_, ?_, fun env src opts store0 h => setupPhase_parse_none env filename src opts store0 h⟩
  · rw [hparse true]
    simp
  · rw [hparse false]
    simp

/-- C9 witness: a one-token specifier naming an existing store without a
`table=` token fails (and leaves the store untouched); with no store file
present the prefix defaults to the base name "tiles". -/
theorem claim9_witness :
    tokenize ',' (stripScheme "/data/tiles.sqlite") = ["/data/tiles.sqlite"] ∧
    parseTarget "/data/tiles.sqlite" true = none ∧
    parseTarget "/data/tiles.sqlite" false = some ("/data/tiles.sqlite", "tiles") ∧
    setupPhase envAll "/data/tiles.sqlite" srcTwo [] (some dbPrior) = .error (some dbPrior) := by
  have h := claim9_theorem "/data/tiles.sqlite" "/data/tiles.sqlite" [] (by decide) (by simp)
  refine ⟨by decide, h.1, ?_, ?_⟩
  · rw [h.2.1]
    decide
  · exact h.2.2 envAll srcTwo [] (some dbPrior) h.1

/-- C10 counterexample: with T_rasters existing (holding one row), the
metadata table absent, and `WIPE=YES`, the ingestion does fail before the
transaction, but the existing T_rasters table is not left unchanged: the
wipe's DELETE empties it before the failing metadata-layer lookup. -/
theorem claim10_counterexample :
    dbRastersOnly.rasterTableExists = true ∧
    dbRastersOnly.metadataTableExists = false ∧
    dbRastersOnly.rasterRows ≠ [] ∧
    (rasterliteCreateCopy envAll "/tmp/sample.sqlite,table=sample" srcTwo [("WIPE", "YES")]
      (some dbRastersOnly) orcAll).returnedStore = none ∧
    ((rasterliteCreateCopy envAll "/tmp/sample.sqlite,table=sample" srcTwo [("WIPE", "YES")]
      (some dbRastersOnly) orcAll).finalStore.map (fun d => d.rasterRows)) = some [] := by
  refine ⟨by decide, by decide, by decide, by decide, by decide⟩

/-- C10 (amended): when the tile-blob table exists but the metadata table
does not, the schema manager takes its reuse branch (the decision is made
solely from the tile-blob table's existence), no table is created, and the
whole ingestion fails before the tile-insert transaction begins — either at
the SRS-mismatch check or at the subsequent lookup of the missing metadata
layer — returning null; the existing T_rasters rows are unchanged provided
WIPE is not set (a set WIPE deletes them before the failure). -/
theorem claim10_theorem (env : Env) (filename : String) (src : SrcDataset)
    (opts : List (String × String)) (orc : BlockOracle) (db0 : DBState)
    (hr : db0.rasterTableExists = true) (hm : db0.metadataTableExists = false) :
    ∃ d, rasterliteCreateCopy env filename src opts (some db0) orc = .earlyFail (some d) ∧
      d.rasterTableExists = true ∧ d.metadataTableExists = false ∧
      (cplTestBool (cslFetchNameValueDef opts "WIPE" "NO") = false →
        d.rasterRows = db0.rasterRows ∧ d.metadataRows = db0.metadataRows) := by
  obtain ⟨d, hd, h1, h2, h3⟩ := setupPhase_noMeta env filename src opts db0 hr hm
  refine ⟨d, ?_, h1, h2, h3⟩
  unfold rasterliteCreateCopy
  rw [hd]

/-- C10 witness: without WIPE, the orphaned T_rasters table (one row) is
left byte-for-byte unchanged by the failed ingestion. -/
theorem claim10_witness :
    dbRastersOnly.rasterTableExists = true ∧
    dbRastersOnly.metadataTableExists = false ∧
    ∃ d, rasterliteCreateCopy envAll "/tmp/sample.sqlite,table=sample" srcTwo []
        (some dbRastersOnly) orcAll = .earlyFail (some d) ∧
      d.rasterTableExists = true ∧ d.metadataTableExists = false ∧
      (cplTestBool (cslFetchNameValueDef ([] : List (String × String)) "WIPE" "NO") = false →
        d.rasterRows = dbRastersOnly.rasterRows ∧
        d.metadataRows = dbRastersOnly.metadataRows) := by
  exact ⟨by decide, by decide,
    claim10_theorem envAll "/tmp/sample.sqlite,table=sample" srcTwo [] orcAll dbRastersOnly
      (by decide) (by decide)⟩

end Rasterlite
